import Mathlib

/-!
Shallow embedding of the SolarFlow home-automation bridge.

Source files embedded here:
- `apps/solarflow.py` — the MQTT bridge `SolarFlow` (property decoding,
  derived values, discovery publication, command handlers).
- `apps/solarflow_control.py` — the periodic output-limit controller
  `SolarFlowControl.control_loop`.

Numbers are modelled as rationals (Python ints and floats on these code
paths are exact decimal/integer values), strings as `String`.  Side
effects (MQTT publishes, subscriptions, timers, log lines) are recorded
as an explicit `Act` trace.  Python exception semantics inside the
properties-report handler are modelled by `HRes`/`hseq`: once an
exception is pending, the remaining statements do not run, but state
mutations already performed persist.
-/

/-- Value stored in the bridge state cache and published on state topics
(Python `Union[str, int]`, plus floats produced by the `/ 10` scale
conversions). -/
inductive PVal where
  | num (q : ℚ)
  | str (s : String)
deriving DecidableEq, Repr

/-- Python exceptions that the embedded handler code can raise:
`ValueError` from `list.index`, `KeyError` from a dict lookup, and
`TypeError` from arithmetic or comparison on a non-numeric cache value. -/
inductive PyErr where
  | valueError
  | keyError (key : String)
  | typeError
deriving DecidableEq, Repr

/-- Observable side effect of the bridge.  `pubConfig` is
`mqtt_publish(info['config_topic'], json.dumps(info['config']))` for an
item's discovery descriptor; `pubStart` is the optional initial value
published to the item's state topic at registration; `pubState` is the
state publish in `publish_state`; `pubWrite` is an outbound
properties-write request envelope (its random message id and wall-clock
timestamp are abstracted); `readAll` is `request_all()`, the
properties-read request for `getAll`. -/
inductive Act where
  | pubConfig (item : String) (config_topic : String)
  | pubStart (item : String) (state_topic : String) (v : PVal)
  | pubState (item : String) (state_topic : String) (v : PVal)
  | pubWrite (props : List (String × PVal))
  | readAll
  | subscribeCmd (topic : String)
  | runInDiscovery (delay_sec : ℕ)
  | runInPeriodic (delay_sec : ℕ)
  | logMsg (msg : String)
deriving DecidableEq, Repr

/-- Discovery descriptor record for one canonical item, keeping the
fields the bridge logic reads: the discovery config topic, the state
topic (`info['config']['state_topic']`), the optional command topic,
whether a `command_callback` is attached, and the optional
`start_value`.  The remaining `config` entries (name, device block,
icon, unit, slider bounds — including `output_limit`'s `max` taken from
the cached `max_inverter_input`) are opaque descriptor metadata that no
control flow reads back. -/
structure ItemInfo where
  config_topic : String
  state_topic : String
  command_topic : Option String
  has_command_callback : Bool
  start_value : Option PVal
deriving DecidableEq, Repr

/-- One entry of a report's `packData` array: the serial `sn` plus the
optional per-pack fields the handler reads. -/
structure PackData where
  sn : String
  socLevel : Option ℚ
  state : Option ℚ
  maxTemp : Option ℚ
deriving DecidableEq, Repr

/-- Decoded JSON body of a properties report: the optional flat
`properties` map (raw device values are numeric) and the optional
`packData` array. -/
structure Report where
  properties : Option (List (String × ℚ))
  packData : Option (List PackData)
deriving DecidableEq, Repr

/-- Mutable state of the `SolarFlow` bridge instance. -/
structure Bridge where
  topic_prefix : String
  device_id : String
  device_serial : Option String
  module_versions : List (String × ℚ)
  battery_packs : List String
  topics : List (String × ItemInfo)
  command_topics : List String
  cache : List (String × PVal)
deriving DecidableEq, Repr

def SEND_DISCOVERY_INTERVAL_SEC : ℕ := 10

def REQUEST_ALL_INTERVAL_SEC : ℕ := 1800

def PV_BRANDS : List (String × ℚ) :=
  [("other", 0), ("hoymiles", 1), ("enphase", 2), ("apsystems", 3),
   ("anker", 4), ("deye", 5), ("bosswerk", 15)]

def BYPASS_MODES : List (String × ℚ) :=
  [("automatic", 0), ("always_off", 1), ("always_on", 2)]

/-- First-match lookup on an insertion-ordered association list
(Python dict read by key; also Python's first-wins semantics where the
embedding needs only reads). -/
def alookup {α : Type} (c : List (String × α)) (k : String) : Option α :=
  match c with
  | [] => none
  | (k', v) :: rest => if k' = k then some v else alookup rest k

/-- Python dict assignment `d[k] = v` on an insertion-ordered
association list. -/
def dictSet (c : List (String × PVal)) (k : String) (v : PVal) :
    List (String × PVal) :=
  match c with
  | [] => [(k, v)]
  | (k', v') :: rest => if k' = k then (k, v) :: rest else (k', v') :: dictSet rest k v

/-- Python dict read `d.get(k)` / membership test `k in d`. -/
def dictGet (c : List (String × PVal)) (k : String) : Option PVal :=
  alookup c k

/-- Reverse enum lookup
`list(TABLE.keys())[list(TABLE.values()).index(code)]`: the first name
whose code matches; `list.index` raises `ValueError` when the code is
absent from the table. -/
def revLookup (table : List (String × ℚ)) (code : ℚ) : Except PyErr String :=
  match table.find? (fun p => decide (p.2 = code)) with
  | some p => Except.ok p.1
  | none => Except.error PyErr.valueError

/-- Subscripted cache read `self.cache[k]` used as a number: raises
`KeyError` if the key is absent, `TypeError` (at the arithmetic that
consumes it) if the stored value is a string. -/
def cacheNum (c : List (String × PVal)) (k : String) : Except PyErr ℚ :=
  match dictGet c k with
  | none => Except.error (PyErr.keyError k)
  | some (PVal.num q) => Except.ok q
  | some (PVal.str _) => Except.error PyErr.typeError

/-- Guarded cache read `x = self.cache[k] if k in self.cache else 0`
used as a number in a comparison: absent keys default to `0`; a stored
string would raise `TypeError` at the comparison. -/
def cacheNumOr0 (c : List (String × PVal)) (k : String) : Except PyErr ℚ :=
  match dictGet c k with
  | none => Except.ok 0
  | some (PVal.num q) => Except.ok q
  | some (PVal.str _) => Except.error PyErr.typeError

/-- The registered state topic of an item
(`self.topics[item]['config']['state_topic']`), if the item has been
registered by discovery. -/
def state_topic (st : Bridge) (item : String) : Option String :=
  (alookup st.topics item).map ItemInfo.state_topic

/-- Actions emitted by `publish_state`: a publish to the item's state
topic when the item is registered, nothing otherwise. -/
def pubActs (st : Bridge) (item : String) (v : PVal) : List Act :=
  match state_topic st item with
  | none => []
  | some t => [Act.pubState item t v]

/-- `publish_state(item, state)`: unconditionally record the value in
the state cache, then publish to the item's state topic if (and only
if) the item has a registered discovery descriptor. -/
def publish_state (st : Bridge) (item : String) (v : PVal) :
    Bridge × List Act :=
  ({ st with cache := dictSet st.cache item v }, pubActs st item v)

/-- Intermediate result of the properties-report handler: the bridge
state, the action trace so far, and the pending Python exception if one
was raised. -/
structure HRes where
  st : Bridge
  acts : List Act
  err : Option PyErr
deriving DecidableEq, Repr

/-- Sequencing with Python exception semantics: once an exception is
pending, later statements of the handler do not run, but state changes
already made persist. -/
def hseq (r : HRes) (f : Bridge → List Act → HRes) : HRes :=
  match r.err with
  | some _ => r
  | none => f r.st r.acts

/-- One `if key in properties: self.publish_state(item, f(properties[key]))`
block of the handler. -/
def stepPub (props : List (String × ℚ)) (key item : String) (f : ℚ → PVal)
    (st : Bridge) (acts : List Act) : HRes :=
  match alookup props key with
  | some v => ⟨(publish_state st item (f v)).1, acts ++ (publish_state st item (f v)).2, none⟩
  | none => ⟨st, acts, none⟩

/-- An enum-decoded property (`passMode`, `pvBrand`): reverse-look up
the reported code in the name-to-code table and publish the name; the
lookup raises `ValueError` for a code outside the table, before any
state is touched. -/
def stepEnum (props : List (String × ℚ)) (key item : String)
    (table : List (String × ℚ)) (st : Bridge) (acts : List Act) : HRes :=
  match alookup props key with
  | none => ⟨st, acts, none⟩
  | some code =>
    match revLookup table code with
    | Except.error e => ⟨st, acts, some e⟩
    | Except.ok name =>
      ⟨(publish_state st item (PVal.str name)).1,
       acts ++ (publish_state st item (PVal.str name)).2, none⟩

/-- The solar-overflow derivation: guarded on the overflow trigger flag
and on `solar_input_power` and `battery_input_power` being cached, it
then computes `max(cache['solar_input_power'] -
cache['battery_output_power'], 0)` — note the unguarded subscripted
read of `battery_output_power`, which raises `KeyError` when that entry
is absent. -/
def stepOverflow (calcOverflow : Bool) (st : Bridge) (acts : List Act) : HRes :=
  if calcOverflow && (dictGet st.cache "solar_input_power").isSome
      && (dictGet st.cache "battery_input_power").isSome then
    match cacheNum st.cache "solar_input_power" with
    | Except.error e => ⟨st, acts, some e⟩
    | Except.ok sip =>
      match cacheNum st.cache "battery_output_power" with
      | Except.error e => ⟨st, acts, some e⟩
      | Except.ok bop =>
        ⟨(publish_state st "solar_overflow_power" (PVal.num (max (sip - bop) 0))).1,
         acts ++ (publish_state st "solar_overflow_power" (PVal.num (max (sip - bop) 0))).2,
         none⟩
  else ⟨st, acts, none⟩

/-- Aggregate-state precedence: discharging before charging before
solar pass-through before idle. -/
def aggStateName (discharge charge solar : ℚ) : String :=
  if 0 < discharge then "discharging"
  else if 0 < charge then "charging"
  else if 0 < solar then "solar_passthrough"
  else "idle"

/-- The aggregate charge/discharge/idle/pass-through derivation, run
when any of its trigger fields was in the report; missing cache inputs
default to `0`. -/
def stepAggState (calcState : Bool) (st : Bridge) (acts : List Act) : HRes :=
  if calcState then
    match cacheNumOr0 st.cache "battery_input_power" with
    | Except.error e => ⟨st, acts, some e⟩
    | Except.ok discharge =>
      match cacheNumOr0 st.cache "battery_output_power" with
      | Except.error e => ⟨st, acts, some e⟩
      | Except.ok charge =>
        match cacheNumOr0 st.cache "solar_input_power" with
        | Except.error e => ⟨st, acts, some e⟩
        | Except.ok solar =>
          ⟨(publish_state st "state" (PVal.str (aggStateName discharge charge solar))).1,
           acts ++ (publish_state st "state" (PVal.str (aggStateName discharge charge solar))).2,
           none⟩
  else ⟨st, acts, none⟩

/-- Canonical item key of a per-pack derived item: `pack_{sn}{suffix}`
with suffix one of `_soc`, `_state`, `_temperature`. -/
def packItem (sn suffix : String) : String := "pack_" ++ sn ++ suffix

/-- Per-pack state enum decode: `0` standby, `1` charging, `2`
discharging, anything else `unknown` (no error). -/
def packStateName (code : ℚ) : String :=
  if code = 0 then "standby"
  else if code = 1 then "charging"
  else if code = 2 then "discharging"
  else "unknown"

/-- One optional `if field in pack: self.publish_state(item, value)`
block of the per-pack loop, accumulating state and actions. -/
def optPub (item : String) (ov : Option PVal) (r : Bridge × List Act) :
    Bridge × List Act :=
  match ov with
  | some v => ((publish_state r.1 item v).1, r.2 ++ (publish_state r.1 item v).2)
  | none => r

/-- Body of the per-pack update loop for one `packData` entry: applied
only when the entry's serial is already in the battery-pack roster;
`socLevel` and the decoded `state` publish as-is, `maxTemp` is scaled
by `/ 10`. -/
def applyPack (r : Bridge × List Act) (pack : PackData) : Bridge × List Act :=
  if pack.sn ∈ r.1.battery_packs then
    optPub (packItem pack.sn "_temperature") (pack.maxTemp.map (fun t => PVal.num (t / 10)))
      (optPub (packItem pack.sn "_state") (pack.state.map (fun c => PVal.str (packStateName c)))
        (optPub (packItem pack.sn "_soc") (pack.socLevel.map PVal.num) r))
  else r

/-- The `packNum` block: the canonical pack enumeration replaces the
battery-pack roster (only when `packData` is also present) and
reschedules discovery. -/
def stepPackNum (props : List (String × ℚ)) (packData : Option (List PackData))
    (st : Bridge) (acts : List Act) : HRes :=
  if (alookup props "packNum").isSome then
    match packData with
    | some pd =>
      ⟨{ st with battery_packs := pd.map PackData.sn },
       acts ++ [Act.runInDiscovery SEND_DISCOVERY_INTERVAL_SEC], none⟩
    | none => ⟨st, acts, none⟩
  else ⟨st, acts, none⟩

/-- The per-pack update loop over `packData`. -/
def stepPackData (packData : Option (List PackData)) (st : Bridge)
    (acts : List Act) : HRes :=
  match packData with
  | none => ⟨st, acts, none⟩
  | some pd =>
    let r := pd.foldl applyPack (st, acts)
    ⟨r.1, r.2, none⟩

/-- The statements of `properties_report_received` before the
`packNum` block, in source order.  The two derivation trigger flags
are fully determined by which keys the report contains. -/
def handlerFront (props : List (String × ℚ)) :
    List (Bridge → List Act → HRes) :=
  let calcOverflow := (alookup props "solarInputPower").isSome
      || (alookup props "packInputPower").isSome
  let calcState := (alookup props "outputPackPower").isSome || calcOverflow
  [stepPub props "electricLevel" "battery" PVal.num,
   stepPub props "outputHomePower" "home_output_power" PVal.num,
   stepPub props "outputPackPower" "battery_output_power" PVal.num,
   stepPub props "solarInputPower" "solar_input_power" PVal.num,
   stepPub props "pvPower1" "solar_input_1_power" PVal.num,
   stepPub props "solarPower1" "solar_input_1_power" PVal.num,
   stepPub props "pvPower2" "solar_input_2_power" PVal.num,
   stepPub props "solarPower2" "solar_input_2_power" PVal.num,
   stepPub props "packInputPower" "battery_input_power" PVal.num,
   stepEnum props "passMode" "bypass_mode" BYPASS_MODES,
   stepOverflow calcOverflow,
   stepAggState calcState,
   stepPub props "outputLimit" "output_limit" PVal.num,
   stepPub props "inverseMaxPower" "max_inverter_input" PVal.num,
   stepPub props "minSoc" "min_soc" (fun v => PVal.num (v / 10)),
   stepPub props "socSet" "max_soc" (fun v => PVal.num (v / 10)),
   stepPub props "remainOutTime" "battery_runtime" PVal.num,
   stepPub props "remainInputTime" "battery_charge_time" PVal.num,
   stepEnum props "pvBrand" "pv_brand" PV_BRANDS,
   stepPub props "buzzerSwitch" "buzzer_switch"
     (fun v => PVal.str (if v = 1 then "ON" else "OFF"))]

/-- All statements of `properties_report_received` after the
`properties` presence check, in source order: the direct decodes and
derivations, then the `packNum` roster block, then the per-pack loop. -/
def handlerSteps (props : List (String × ℚ)) (packData : Option (List PackData)) :
    List (Bridge → List Act → HRes) :=
  handlerFront props ++ [stepPackNum props packData, stepPackData packData]

/-- `properties_report_received(data)`: a report without a `properties`
key returns immediately; otherwise the statements run in order with
Python exception semantics. -/
def properties_report_received (st0 : Bridge) (data : Report) : HRes :=
  match data.properties with
  | none => ⟨st0, [], none⟩
  | some props => (handlerSteps props data.packData).foldl hseq ⟨st0, [], none⟩

/-- The three dynamically generated discovery descriptors of one
battery pack, keyed by serial. -/
def packTopics (node_id : String) (serial : String) : List (String × ItemInfo) :=
  [(packItem serial "_soc",
    { config_topic := "homeassistant/sensor/" ++ node_id ++ "/" ++ packItem serial "_soc" ++ "/config",
      state_topic := "solarflow/" ++ packItem serial "_soc" ++ "/state",
      command_topic := none, has_command_callback := false, start_value := none }),
   (packItem serial "_state",
    { config_topic := "homeassistant/sensor/" ++ node_id ++ "/" ++ packItem serial "_state" ++ "/config",
      state_topic := "solarflow/" ++ packItem serial "_state" ++ "/state",
      command_topic := none, has_command_callback := false, start_value := none }),
   (packItem serial "_temperature",
    { config_topic := "homeassistant/sensor/" ++ node_id ++ "/" ++ packItem serial "_temperature" ++ "/config",
      state_topic := "solarflow/" ++ packItem serial "_temperature" ++ "/state",
      command_topic := none, has_command_callback := false, start_value := none })]

/-- The full descriptor set built fresh by every `try_send_discovery`
invocation: the eighteen static items in dict-literal order, followed
by three entries per battery pack in roster order. -/
def new_topics (node_id : String) (packs : List String) : List (String × ItemInfo) :=
  [("battery",
    { config_topic := "homeassistant/sensor/" ++ node_id ++ "/battery_soc/config",
      state_topic := "solarflow/battery/state",
      command_topic := none, has_command_callback := false, start_value := none }),
   ("state",
    { config_topic := "homeassistant/sensor/" ++ node_id ++ "/state/config",
      state_topic := "solarflow/state",
      command_topic := none, has_command_callback := false, start_value := none }),
   ("bypass_mode",
    { config_topic := "homeassistant/select/" ++ node_id ++ "/bypass_mode/config",
      state_topic := "solarflow/bypass_mode/state",
      command_topic := some "solarflow/bypass_mode/set",
      has_command_callback := true, start_value := none }),
   ("home_output_power",
    { config_topic := "homeassistant/sensor/" ++ node_id ++ "/home_output_power/config",
      state_topic := "solarflow/home_output_power/state",
      command_topic := none, has_command_callback := false, start_value := some (PVal.num 0) }),
   ("battery_output_power",
    { config_topic := "homeassistant/sensor/" ++ node_id ++ "/battery_output_power/config",
      state_topic := "solarflow/battery_output_power/state",
      command_topic := none, has_command_callback := false, start_value := some (PVal.num 0) }),
   ("solar_input_power",
    { config_topic := "homeassistant/sensor/" ++ node_id ++ "/solar_input_power/config",
      state_topic := "solarflow/solar_input_power/state",
      command_topic := none, has_command_callback := false, start_value := some (PVal.num 0) }),
   ("solar_input_1_power",
    { config_topic := "homeassistant/sensor/" ++ node_id ++ "/solar_input_1/config",
      state_topic := "solarflow/solar_input_1_power/state",
      command_topic := none, has_command_callback := false, start_value := some (PVal.num 0) }),
   ("solar_input_2_power",
    { config_topic := "homeassistant/sensor/" ++ node_id ++ "/solar_input_2/config",
      state_topic := "solarflow/solar_input_2_power/state",
      command_topic := none, has_command_callback := false, start_value := some (PVal.num 0) }),
   ("solar_overflow_power",
    { config_topic := "homeassistant/sensor/" ++ node_id ++ "/solar_overflow_power/config",
      state_topic := "solarflow/solar_overflow_power/state",
      command_topic := none, has_command_callback := false, start_value := some (PVal.num 0) }),
   ("battery_input_power",
    { config_topic := "homeassistant/sensor/" ++ node_id ++ "/battery_input_power/config",
      state_topic := "solarflow/battery_input_power/state",
      command_topic := none, has_command_callback := false, start_value := some (PVal.num 0) }),
   ("battery_charge_time",
    { config_topic := "homeassistant/sensor/" ++ node_id ++ "/battery_charge_time/config",
      state_topic := "solarflow/battery_charge_time/state",
      command_topic := none, has_command_callback := false, start_value := some (PVal.num 0) }),
   ("battery_runtime",
    { config_topic := "homeassistant/sensor/" ++ node_id ++ "/battery_runtime/config",
      state_topic := "solarflow/battery_runtime/state",
      command_topic := none, has_command_callback := false, start_value := none }),
   ("min_soc",
    { config_topic := "homeassistant/number/" ++ node_id ++ "/min_soc/config",
      state_topic := "solarflow/min_soc/state",
      command_topic := some "solarflow/min_soc/set",
      has_command_callback := true, start_value := none }),
   ("max_soc",
    { config_topic := "homeassistant/number/" ++ node_id ++ "/max_soc/config",
      state_topic := "solarflow/max_soc/state",
      command_topic := some "solarflow/max_soc/set",
      has_command_callback := true, start_value := none }),
   ("max_inverter_input",
    { config_topic := "homeassistant/number/" ++ node_id ++ "/max_inverter_input/config",
      state_topic := "solarflow/max_inverter_input/state",
      command_topic := some "solarflow/max_inverter_input/set",
      has_command_callback := true, start_value := none }),
   ("output_limit",
    { config_topic := "homeassistant/number/" ++ node_id ++ "/output_limit/config",
      state_topic := "solarflow/output_limit/state",
      command_topic := some "solarflow/output_limit/set",
      has_command_callback := true, start_value := none }),
   ("buzzer_switch",
    { config_topic := "homeassistant/switch/" ++ node_id ++ "/buzzer_switch/config",
      state_topic := "solarflow/buzzer_switch/state",
      command_topic := some "solarflow/buzzer_switch/set",
      has_command_callback := true, start_value := none }),
   ("pv_brand",
    { config_topic := "homeassistant/select/" ++ node_id ++ "/pv_brand/config",
      state_topic := "solarflow/pv_brand/state",
      command_topic := some "solarflow/pv_brand/set",
      has_command_callback := true, start_value := none })]
  ++ (packs.map (packTopics node_id)).flatten

/-- One iteration of the registration loop of `try_send_discovery`:
an item already in `self.topics` is skipped; otherwise its descriptor
is published, its optional `start_value` is published to its state
topic, and the item is recorded as registered. -/
def registerItemStep (acc : List (String × ItemInfo) × List Act)
    (itm : String × ItemInfo) : List (String × ItemInfo) × List Act :=
  if (alookup acc.1 itm.1).isSome then acc
  else (acc.1 ++ [itm],
        acc.2 ++ [Act.pubConfig itm.1 itm.2.config_topic]
          ++ (match itm.2.start_value with
              | some v => [Act.pubStart itm.1 itm.2.state_topic v]
              | none => []))

/-- The registration loop of `try_send_discovery` over the freshly
built descriptor set. -/
def registerItems (acc : List (String × ItemInfo) × List Act)
    (nt : List (String × ItemInfo)) : List (String × ItemInfo) × List Act :=
  nt.foldl registerItemStep acc

/-- One iteration of the command-topic subscription loop of
`try_send_discovery`: a declared command topic not yet subscribed is
subscribed and recorded. -/
def subscribeCommandStep (acc : List String × List Act)
    (itm : String × ItemInfo) : List String × List Act :=
  match itm.2.command_topic with
  | some t => if t ∈ acc.1 then acc else (acc.1 ++ [t], acc.2 ++ [Act.subscribeCmd t])
  | none => acc

/-- The command-topic subscription loop of `try_send_discovery` over
the items already registered in `self.topics`. -/
def subscribeCommands (acc : List String × List Act)
    (topics : List (String × ItemInfo)) : List String × List Act :=
  topics.foldl subscribeCommandStep acc

/-- `try_send_discovery`: requires the device serial and a cached
`max_inverter_input` before publishing anything (each missing
prerequisite logs, issues a read-all and reschedules the 10-second
retry); an empty battery-pack roster only logs and issues a read-all.
When ready it subscribes new command topics, registers and publishes
all not-yet-registered descriptors, and runs
`periodic_request_all` (an immediate read-all plus the 1800-second
refresh timer). -/
def try_send_discovery (st : Bridge) : Bridge × List Act :=
  match st.device_serial with
  | none =>
    (st, [Act.logMsg "Device serial not yet known, not sending discovery info",
          Act.readAll, Act.runInDiscovery SEND_DISCOVERY_INTERVAL_SEC])
  | some serial =>
    let batActs : List Act :=
      if st.battery_packs = [] then
        [Act.logMsg "Battery packs not yet known (or no batteries installed)",
         Act.readAll]
      else []
    if dictGet st.cache "max_inverter_input" = none then
      (st, batActs ++
        [Act.logMsg "Max inverter input not yet known, not sending discovery info",
         Act.readAll, Act.runInDiscovery SEND_DISCOVERY_INTERVAL_SEC])
    else
      let node_id := "solarflow_" ++ serial ++ "_" ++ st.device_id
      let cmd := subscribeCommands (st.command_topics, []) st.topics
      let reg := registerItems (st.topics, []) (new_topics node_id st.battery_packs)
      ({ st with topics := reg.1, command_topics := cmd.1 },
       batActs ++ [Act.logMsg "Sending discovery info"] ++ cmd.2 ++ reg.2
         ++ [Act.readAll, Act.runInPeriodic REQUEST_ALL_INTERVAL_SEC])

/-- `set_min_soc(state)`, after Python `int(state)` already parsed the
command payload to an integer: values outside `[0, 30]` are logged and
rejected with no outbound write and no state change; valid values are
encoded back to tenths of a percent in a properties-write request. -/
def set_min_soc (st : Bridge) (state_int : ℤ) : Bridge × List Act :=
  if state_int < 0 ∨ 30 < state_int then
    (st, [Act.logMsg "Received invalid min soc"])
  else
    (st, [Act.pubWrite [("minSoc", PVal.num ((state_int : ℚ) * 10))]])

/-- Python `int()` applied to the float sensor reading in the control
loop: truncation toward zero. -/
def pyInt (q : ℚ) : ℤ :=
  if q.num < 0 then -(((-q.num).toNat / q.den : ℕ) : ℤ)
  else ((q.num.toNat / q.den : ℕ) : ℤ)

/-- The candidate setpoint of one control-loop cycle
(`apps/solarflow_control.py`): when `int(soc) <= int(min_soc)` the
battery counts as depleted — the limit is forced to `0` if it is
currently positive and nothing happens otherwise; only in the
non-depleted branch is the configured strategy's `compute()` consulted
(its result is `computed`). -/
def next_value (soc min_soc output_limit : ℚ) (computed : Option ℚ) : Option ℚ :=
  if pyInt soc ≤ pyInt min_soc then
    if 0 < output_limit then some 0 else none
  else computed

/-- One `control_loop` cycle, returning the list of actuator writes it
performs (the `set_value` service calls on the output-limit entity):
nothing when the controller switch is off or no candidate resulted;
otherwise exactly one write of the candidate clamped to
`[0, max_output]`. -/
def control_loop (switch_on : Bool) (soc min_soc output_limit max_output : ℚ)
    (computed : Option ℚ) : List ℚ :=
  if switch_on = false then []
  else
    match next_value soc min_soc output_limit computed with
    | none => []
    | some v => [max 0 (min max_output v)]

/-- Does a report carry the canonical pack enumeration — a `packNum`
property together with a `packData` array?  Only such a message
replaces the battery-pack roster. -/
def isPackEnumeration (data : Report) : Bool :=
  (match data.properties with
   | none => false
   | some props => (alookup props "packNum").isSome) && data.packData.isSome

/-- Frame property of a handler statement: it can change the cache only
at `item`, never changes the battery-pack roster, and any action it
appends is a state publish of `item`. -/
def WritesOnly (item : String) (f : Bridge → List Act → HRes) : Prop :=
  ∀ st acts, (f st acts).st.battery_packs = st.battery_packs ∧
    (∀ k, k ≠ item → dictGet (f st acts).st.cache k = dictGet st.cache k) ∧
    ∀ a ∈ (f st acts).acts, a ∈ acts ∨ ∃ t v, a = Act.pubState item t v

/-- Is this action a discovery-descriptor publication (the descriptor
itself or the registration-time initial value)? -/
def isDescPub : Act → Bool
  | Act.pubConfig _ _ => true
  | Act.pubStart _ _ _ => true
  | _ => false

/-- Bridge state right after `SolarFlow` starts: nothing learned yet. -/
def emptyBridge : Bridge :=
  { topic_prefix := "73bkTV", device_id := "5ak8yGU7", device_serial := none,
    module_versions := [], battery_packs := [], topics := [], command_topics := [],
    cache := [] }

/-- Bridge state that satisfies the blocking discovery prerequisites
(serial learned, `max_inverter_input` cached) with an empty battery
roster. -/
def readyBridge : Bridge :=
  { emptyBridge with
    device_serial := some "SF12345"
    cache := [("max_inverter_input", PVal.num 800)] }

theorem dictGet_set_self (c : List (String × PVal)) (k : String) (v : PVal) :
    dictGet (dictSet c k v) k = some v := by
  induction c with
  | nil => simp [dictSet, dictGet, alookup]
  | cons hd tl ih =>
    obtain ⟨k', v'⟩ := hd
    by_cases h : k' = k
    · subst h; simp [dictSet, dictGet, alookup]
    · simpa [dictSet, dictGet, alookup, h] using ih

theorem dictGet_set_ne (c : List (String × PVal)) (k k' : String) (v : PVal)
    (h : k' ≠ k) : dictGet (dictSet c k v) k' = dictGet c k' := by
  induction c with
  | nil => simp [dictSet, dictGet, alookup, Ne.symm h]
  | cons hd tl ih =>
    obtain ⟨ka, va⟩ := hd
    by_cases hk : ka = k
    · subst hk; simp [dictSet, dictGet, alookup, Ne.symm h]
    · by_cases hk' : k' = ka
      · subst hk'; simp [dictSet, dictGet, alookup, hk]
      · simpa [dictSet, dictGet, alookup, hk, Ne.symm hk'] using ih

/-- C1 (counterexample): with SOC 10, min SOC 15 and a current output
limit of 0, the claim asserts the loop delegates to the strategy (here
returning 42); the code instead produces no candidate at all — the
strategy result is discarded unconsulted and no write happens. -/
theorem C1_counterexample :
    next_value 10 15 0 (some 42) = none ∧
    control_loop true 10 15 0 500 (some 42) = [] ∧
    (some (42 : ℚ) ≠ (none : Option ℚ)) := by
  refine ⟨by decide, by decide, by simp⟩

/-- C1 (amended): with the enable switch on, if `int(SOC) ≤ int(min
SOC)` and the current output limit is positive the candidate is forced
to 0 regardless of the strategy; if `int(SOC) ≤ int(min SOC)` and the
limit is not positive there is no candidate and the strategy is not
consulted; only when `int(SOC) > int(min SOC)` does the loop delegate
to the active strategy's `compute()`. -/
theorem C1_amended_safety_override (soc min_soc output_limit : ℚ)
    (computed : Option ℚ) :
    (pyInt soc ≤ pyInt min_soc → 0 < output_limit →
      next_value soc min_soc output_limit computed = some 0) ∧
    (pyInt soc ≤ pyInt min_soc → ¬ 0 < output_limit →
      next_value soc min_soc output_limit computed = none) ∧
    (¬ pyInt soc ≤ pyInt min_soc →
      next_value soc min_soc output_limit computed = computed) := by
  refine ⟨fun h1 h2 => ?_, fun h1 h2 => ?_, fun h1 => ?_⟩
  · simp [next_value, h1, h2]
  · simp [next_value, h1, h2]
  · simp [next_value, h1]

/-- C1 (amended) witness at the spec's own example plus a delegation
case. -/
theorem C1_amended_safety_override_witness :
    next_value 10 15 200 (some 37) = some 0 ∧
    next_value 20 15 200 (some 37) = some 37 := by
  constructor
  · exact (C1_amended_safety_override 10 15 200 (some 37)).1 (by decide) (by decide)
  · exact (C1_amended_safety_override 20 15 200 (some 37)).2.2 (by decide)

/-- C6: given `max_output ≥ 0`, whenever a candidate `v` resulted the
cycle performs exactly one actuator write, of
`w = max(0, min(max_output, v))`, and `0 ≤ w ≤ max_output`; when no
candidate resulted the cycle performs no write. -/
theorem C6_clamp_law (soc min_soc output_limit max_output : ℚ)
    (computed : Option ℚ) (hmax : 0 ≤ max_output) :
    (∀ v, next_value soc min_soc output_limit computed = some v →
      control_loop true soc min_soc output_limit max_output computed
          = [max 0 (min max_output v)] ∧
        0 ≤ max 0 (min max_output v) ∧ max 0 (min max_output v) ≤ max_output) ∧
    (next_value soc min_soc output_limit computed = none →
      control_loop true soc min_soc output_limit max_output computed = []) := by
  constructor
  · intro v hv
    refine ⟨by simp [control_loop, hv], le_max_left 0 _, ?_⟩
    exact max_le hmax (min_le_left _ _)
  · intro hn
    simp [control_loop, hn]

/-- C6 witness: an over-large strategy output is clamped to
`max_output` and written exactly once. -/
theorem C6_clamp_law_witness :
    control_loop true 50 10 100 500 (some 600) = [500] ∧
    (0 : ℚ) ≤ 500 ∧ (500 : ℚ) ≤ 500 := by
  have h := (C6_clamp_law 50 10 100 500 (some 600) (by decide)).1 600 (by decide)
  refine ⟨?_, by decide, by decide⟩
  rw [h.1]; decide

/-- C7: a min-SOC command whose integer value lies outside `[0, 30]` is
rejected: the handler returns after logging, the bridge state
(including the cached min-SOC) is untouched, and no outbound
properties-write request is published. -/
theorem C7_min_soc_validation (st : Bridge) (n : ℤ) (h : n < 0 ∨ 30 < n) :
    (set_min_soc st n).1 = st ∧
    dictGet (set_min_soc st n).1.cache "min_soc" = dictGet st.cache "min_soc" ∧
    (∀ ps, Act.pubWrite ps ∉ (set_min_soc st n).2) := by
  refine ⟨by simp [set_min_soc, h], by simp [set_min_soc, h], fun ps => ?_⟩
  simp [set_min_soc, h]

/-- C7 witness at the spec's example value 35. -/
theorem C7_min_soc_validation_witness :
    (set_min_soc readyBridge 35).1 = readyBridge ∧
    dictGet (set_min_soc readyBridge 35).1.cache "min_soc"
        = dictGet readyBridge.cache "min_soc" ∧
    (∀ ps, Act.pubWrite ps ∉ (set_min_soc readyBridge 35).2) :=
  C7_min_soc_validation readyBridge 35 (Or.inr (by decide))

/-- C10: `publish_state(item, v)` always records `v` as the cache entry
of `item` (the cache holds the last value passed for each item), and
publishes to the item's state topic exactly when the item has a
registered discovery descriptor — an unregistered item is cached with
no publish. -/
theorem C10_publish_state_cache (st : Bridge) (item : String) (v : PVal) :
    dictGet (publish_state st item v).1.cache item = some v ∧
    (alookup st.topics item = none → (publish_state st item v).2 = []) ∧
    (∀ info, alookup st.topics item = some info →
      (publish_state st item v).2 = [Act.pubState item info.state_topic v]) := by
  refine ⟨dictGet_set_self st.cache item v, fun h => ?_, fun info h => ?_⟩
  · simp [publish_state, pubActs, state_topic, h]
  · simp [publish_state, pubActs, state_topic, h]

/-- C10 witness: caching `max_inverter_input` before discovery has
registered any descriptor. -/
theorem C10_publish_state_cache_witness :
    dictGet (publish_state emptyBridge "max_inverter_input" (PVal.num 800)).1.cache
        "max_inverter_input" = some (PVal.num 800) ∧
    (publish_state emptyBridge "max_inverter_input" (PVal.num 800)).2 = [] := by
  have h := C10_publish_state_cache emptyBridge "max_inverter_input" (PVal.num 800)
  exact ⟨h.1, h.2.1 (by decide)⟩

/-- Per-pack cache keys start with the fixed prefix characters, so they
can never collide with a canonical item key that does not. -/
theorem packItem_ne (sn suffix k : String) (hk : k.data.take 2 ≠ ['p', 'a']) :
    packItem sn suffix ≠ k := by
  intro he
  apply hk
  rw [← he]
  simp [packItem, String.data_append]

/-- C2 (evaluation at the failing input): a properties report carrying
the unknown bypass-mode code 99 makes the handler raise `ValueError`
out of `list.index` — nothing is skipped-and-logged, and the `minSoc`
field later in the same report is never processed. -/
theorem C2_unknown_enum_code_raises :
    (properties_report_received emptyBridge
        { properties := some [("passMode", 99), ("minSoc", 155)], packData := none }).err
      = some PyErr.valueError ∧
    dictGet (properties_report_received emptyBridge
        { properties := some [("passMode", 99), ("minSoc", 155)], packData := none }).st.cache
        "min_soc" = none := by
  exact ⟨by decide, by decide⟩

/-- C3 (evaluation at the failing input): a first report carrying
solar-input and battery-input power passes the overflow guard (which
checks `battery_input_power`) but the computation reads
`battery_output_power`, which is not cached — the handler raises
`KeyError` instead of skipping silently. -/
theorem C3_overflow_keyerror :
    (properties_report_received emptyBridge
        { properties := some [("solarInputPower", 200), ("packInputPower", 100)],
          packData := none }).err
      = some (PyErr.keyError "battery_output_power") ∧
    dictGet (properties_report_received emptyBridge
        { properties := some [("solarInputPower", 200), ("packInputPower", 100)],
          packData := none }).st.cache "solar_overflow_power" = none := by
  exact ⟨by decide, by decide⟩

/-- C5 (counterexample): the battery SOC key `electricLevel` is
published raw — raw value 155 is cached as 155, not as the claimed
155 ÷ 10. -/
theorem C5_counterexample :
    dictGet (properties_report_received emptyBridge
        { properties := some [("electricLevel", 155)], packData := none }).st.cache "battery"
      = some (PVal.num 155) ∧
    PVal.num 155 ≠ PVal.num (155 / 10) := by
  refine ⟨by decide, fun h => ?_⟩
  have h2 := PVal.num.inj h
  norm_num at h2

/-- C5 (amended): the tenths-to-percent ÷10 conversion is applied
exactly once, at decode time, to the SOC limit keys `minSoc` and
`socSet` only; the battery SOC `electricLevel` and the per-pack SOC
`socLevel` are published raw, with no scale conversion. -/
theorem C5_amended_scale_conversion (st0 : Bridge) (v1 v2 v3 v4 : ℚ) (sn : String)
    (hsn : sn ∈ st0.battery_packs) :
    (properties_report_received st0
        { properties := some [("electricLevel", v1), ("minSoc", v2), ("socSet", v3)],
          packData := some [{ sn := sn, socLevel := some v4, state := none, maxTemp := none }] }).err
        = none ∧
    dictGet (properties_report_received st0
        { properties := some [("electricLevel", v1), ("minSoc", v2), ("socSet", v3)],
          packData := some [{ sn := sn, socLevel := some v4, state := none, maxTemp := none }] }).st.cache
        "battery" = some (PVal.num v1) ∧
    dictGet (properties_report_received st0
        { properties := some [("electricLevel", v1), ("minSoc", v2), ("socSet", v3)],
          packData := some [{ sn := sn, socLevel := some v4, state := none, maxTemp := none }] }).st.cache
        "min_soc" = some (PVal.num (v2 / 10)) ∧
    dictGet (properties_report_received st0
        { properties := some [("electricLevel", v1), ("minSoc", v2), ("socSet", v3)],
          packData := some [{ sn := sn, socLevel := some v4, state := none, maxTemp := none }] }).st.cache
        "max_soc" = some (PVal.num (v3 / 10)) ∧
    dictGet (properties_report_received st0
        { properties := some [("electricLevel", v1), ("minSoc", v2), ("socSet", v3)],
          packData := some [{ sn := sn, socLevel := some v4, state := none, maxTemp := none }] }).st.cache
        (packItem sn "_soc") = some (PVal.num v4) := by
  refine ⟨?_, ?_, ?_, ?_, ?_⟩
  · simp [properties_report_received, handlerSteps, handlerFront, stepPub, stepEnum,
      stepOverflow, stepAggState, stepPackNum, stepPackData, applyPack, optPub, hseq,
      publish_state, alookup, hsn]
  · simp [properties_report_received, handlerSteps, handlerFront, stepPub, stepEnum,
      stepOverflow, stepAggState, stepPackNum, stepPackData, applyPack, optPub, hseq,
      publish_state, alookup, hsn]
    rw [dictGet_set_ne _ _ _ _ (Ne.symm (packItem_ne sn "_soc" "battery" (by decide)))]
    rw [dictGet_set_ne _ _ _ _ (by decide : ("battery" : String) ≠ "max_soc")]
    rw [dictGet_set_ne _ _ _ _ (by decide : ("battery" : String) ≠ "min_soc")]
    exact dictGet_set_self _ _ _
  · simp [properties_report_received, handlerSteps, handlerFront, stepPub, stepEnum,
      stepOverflow, stepAggState, stepPackNum, stepPackData, applyPack, optPub, hseq,
      publish_state, alookup, hsn]
    rw [dictGet_set_ne _ _ _ _ (Ne.symm (packItem_ne sn "_soc" "min_soc" (by decide)))]
    rw [dictGet_set_ne _ _ _ _ (by decide : ("min_soc" : String) ≠ "max_soc")]
    exact dictGet_set_self _ _ _
  · simp [properties_report_received, handlerSteps, handlerFront, stepPub, stepEnum,
      stepOverflow, stepAggState, stepPackNum, stepPackData, applyPack, optPub, hseq,
      publish_state, alookup, hsn]
    rw [dictGet_set_ne _ _ _ _ (Ne.symm (packItem_ne sn "_soc" "max_soc" (by decide)))]
    exact dictGet_set_self _ _ _
  · simp [properties_report_received, handlerSteps, handlerFront, stepPub, stepEnum,
      stepOverflow, stepAggState, stepPackNum, stepPackData, applyPack, optPub, hseq,
      publish_state, alookup, hsn]
    exact dictGet_set_self _ _ _

/-- C5 (amended) witness at the spec's example raw value 155 and a
one-pack roster. -/
theorem C5_amended_scale_conversion_witness :
    (properties_report_received { emptyBridge with battery_packs := ["AB123"] }
        { properties := some [("electricLevel", 155), ("minSoc", 155), ("socSet", 955)],
          packData := some [{ sn := "AB123", socLevel := some 155, state := none, maxTemp := none }] }).err
        = none ∧
    dictGet (properties_report_received { emptyBridge with battery_packs := ["AB123"] }
        { properties := some [("electricLevel", 155), ("minSoc", 155), ("socSet", 955)],
          packData := some [{ sn := "AB123", socLevel := some 155, state := none, maxTemp := none }] }).st.cache
        "battery" = some (PVal.num 155) ∧
    dictGet (properties_report_received { emptyBridge with battery_packs := ["AB123"] }
        { properties := some [("electricLevel", 155), ("minSoc", 155), ("socSet", 955)],
          packData := some [{ sn := "AB123", socLevel := some 155, state := none, maxTemp := none }] }).st.cache
        "min_soc" = some (PVal.num (155 / 10)) ∧
    dictGet (properties_report_received { emptyBridge with battery_packs := ["AB123"] }
        { properties := some [("electricLevel", 155), ("minSoc", 155), ("socSet", 955)],
          packData := some [{ sn := "AB123", socLevel := some 155, state := none, maxTemp := none }] }).st.cache
        "max_soc" = some (PVal.num (955 / 10)) ∧
    dictGet (properties_report_received { emptyBridge with battery_packs := ["AB123"] }
        { properties := some [("electricLevel", 155), ("minSoc", 155), ("socSet", 955)],
          packData := some [{ sn := "AB123", socLevel := some 155, state := none, maxTemp := none }] }).st.cache
        (packItem "AB123" "_soc") = some (PVal.num 155) :=
  C5_amended_scale_conversion { emptyBridge with battery_packs := ["AB123"] }
    155 155 955 155 "AB123" (by decide)

/-- Every per-pack cache key starts with the two characters of the
fixed pack prefix. -/
theorem packTake2 (sn suffix : String) :
    (packItem sn suffix).data.take 2 = ['p', 'a'] := by
  simp [packItem, String.data_append]

/-- The last `n` characters of a per-pack key are those of its suffix. -/
theorem packItem_suffix_rev (sn suffix : String) (n : ℕ) (hn : n ≤ suffix.length) :
    (packItem sn suffix).data.reverse.take n = suffix.data.reverse.take n := by
  have hlen : n ≤ suffix.data.reverse.length := by
    rw [List.length_reverse]
    exact hn
  simp [packItem, String.data_append, List.reverse_append,
    List.take_append_of_le_length hlen]

/-- Per-pack keys with observably different suffixes differ, whatever
the serials are. -/
theorem packItem_ne_of_suffix (sn s suffix suffix' : String) (n : ℕ)
    (hn : n ≤ suffix.length) (hn' : n ≤ suffix'.length)
    (hdiff : suffix.data.reverse.take n ≠ suffix'.data.reverse.take n) :
    packItem sn suffix ≠ packItem s suffix' := by
  intro he
  apply hdiff
  rw [← packItem_suffix_rev sn suffix n hn, he, packItem_suffix_rev s suffix' n hn']

/-- Per-pack keys with the same suffix and different serials differ. -/
theorem packItem_ne_of_sn (sn s suffix : String) (h : sn ≠ s) :
    packItem sn suffix ≠ packItem s suffix := by
  intro he
  apply h
  have h1 : "pack_".data ++ (sn.data ++ suffix.data)
      = "pack_".data ++ (s.data ++ suffix.data) := by
    simpa [packItem, String.data_append, List.append_assoc] using congrArg String.data he
  have h2 := List.append_cancel_left h1
  have h3 := List.append_cancel_right h2
  exact String.ext h3

/-- The three per-pack keys of serial `s` collide with none of the
three per-pack keys of a different serial `sn`. -/
theorem packKey_ne (s sn : String) (hne : s ≠ sn) :
    ∀ suffix ∈ (["_soc", "_state", "_temperature"] : List String),
      ∀ suffix' ∈ (["_soc", "_state", "_temperature"] : List String),
        packItem s suffix ≠ packItem sn suffix' := by
  intro suffix hs suffix' hs'
  fin_cases hs <;> fin_cases hs'
  · exact packItem_ne_of_sn s sn "_soc" hne
  · exact packItem_ne_of_suffix s sn "_soc" "_state" 4 (by decide) (by decide) (by decide)
  · exact packItem_ne_of_suffix s sn "_soc" "_temperature" 4 (by decide) (by decide) (by decide)
  · exact packItem_ne_of_suffix s sn "_state" "_soc" 4 (by decide) (by decide) (by decide)
  · exact packItem_ne_of_sn s sn "_state" hne
  · exact packItem_ne_of_suffix s sn "_state" "_temperature" 4 (by decide) (by decide) (by decide)
  · exact packItem_ne_of_suffix s sn "_temperature" "_soc" 4 (by decide) (by decide) (by decide)
  · exact packItem_ne_of_suffix s sn "_temperature" "_state" 4 (by decide) (by decide) (by decide)
  · exact packItem_ne_of_sn s sn "_temperature" hne

/-- A canonical item key whose first two characters are not those of
the pack prefix is none of the per-pack keys of any serial. -/
theorem notPackKey (s item : String) (h : item.data.take 2 ≠ ['p', 'a']) :
    ¬ (item = packItem s "_soc" ∨ item = packItem s "_state"
        ∨ item = packItem s "_temperature") := by
  rintro (rfl | rfl | rfl) <;> exact h (packTake2 s _)

/-- Every action produced by `publish_state` is a state publish of the
given item and value. -/
theorem mem_pubActs (st : Bridge) (item : String) (v : PVal) (a : Act)
    (h : a ∈ pubActs st item v) : ∃ t, a = Act.pubState item t v := by
  unfold pubActs at h
  split at h
  · simp at h
  · next t _ =>
    simp at h
    exact ⟨t, h⟩

theorem stepPub_writesOnly (props : List (String × ℚ)) (key item : String)
    (f : ℚ → PVal) : WritesOnly item (stepPub props key item f) := by
  intro st acts
  unfold stepPub
  cases h : alookup props key with
  | none => exact ⟨rfl, fun k hk => rfl, fun a ha => Or.inl ha⟩
  | some v =>
    refine ⟨rfl, fun k hk => dictGet_set_ne _ _ _ _ hk, fun a ha => ?_⟩
    rcases List.mem_append.mp ha with ha | ha
    · exact Or.inl ha
    · obtain ⟨t, ht⟩ := mem_pubActs st item (f v) a ha
      exact Or.inr ⟨t, f v, ht⟩

theorem stepEnum_writesOnly (props : List (String × ℚ)) (key item : String)
    (table : List (String × ℚ)) : WritesOnly item (stepEnum props key item table) := by
  intro st acts
  unfold stepEnum
  split
  · exact ⟨rfl, fun k hk => rfl, fun a ha => Or.inl ha⟩
  · split
    · exact ⟨rfl, fun k hk => rfl, fun a ha => Or.inl ha⟩
    · refine ⟨rfl, fun k hk => dictGet_set_ne _ _ _ _ hk, fun a ha => ?_⟩
      rcases List.mem_append.mp ha with ha | ha
      · exact Or.inl ha
      · obtain ⟨t, ht⟩ := mem_pubActs st item _ a ha
        exact Or.inr ⟨t, _, ht⟩

theorem stepOverflow_writesOnly (b : Bool) :
    WritesOnly "solar_overflow_power" (stepOverflow b) := by
  intro st acts
  unfold stepOverflow
  split
  · split
    · exact ⟨rfl, fun k hk => rfl, fun a ha => Or.inl ha⟩
    · split
      · exact ⟨rfl, fun k hk => rfl, fun a ha => Or.inl ha⟩
      · refine ⟨rfl, fun k hk => dictGet_set_ne _ _ _ _ hk, fun a ha => ?_⟩
        rcases List.mem_append.mp ha with ha | ha
        · exact Or.inl ha
        · obtain ⟨t, ht⟩ := mem_pubActs st "solar_overflow_power" _ a ha
          exact Or.inr ⟨t, _, ht⟩
  · exact ⟨rfl, fun k hk => rfl, fun a ha => Or.inl ha⟩

theorem stepAggState_writesOnly (b : Bool) :
    WritesOnly "state" (stepAggState b) := by
  intro st acts
  unfold stepAggState
  split
  · split
    · exact ⟨rfl, fun k hk => rfl, fun a ha => Or.inl ha⟩
    · split
      · exact ⟨rfl, fun k hk => rfl, fun a ha => Or.inl ha⟩
      · split
        · exact ⟨rfl, fun k hk => rfl, fun a ha => Or.inl ha⟩
        · refine ⟨rfl, fun k hk => dictGet_set_ne _ _ _ _ hk, fun a ha => ?_⟩
          rcases List.mem_append.mp ha with ha | ha
          · exact Or.inl ha
          · obtain ⟨t, ht⟩ := mem_pubActs st "state" _ a ha
            exact Or.inr ⟨t, _, ht⟩
  · exact ⟨rfl, fun k hk => rfl, fun a ha => Or.inl ha⟩

theorem hseq_frame (item : String) (r : HRes) (f : Bridge → List Act → HRes)
    (hf : WritesOnly item f) :
    (hseq r f).st.battery_packs = r.st.battery_packs ∧
    (∀ k, k ≠ item → dictGet (hseq r f).st.cache k = dictGet r.st.cache k) ∧
    ∀ a ∈ (hseq r f).acts, a ∈ r.acts ∨ ∃ t v, a = Act.pubState item t v := by
  unfold hseq
  cases herr : r.err with
  | some e => exact ⟨rfl, fun k hk => rfl, fun a ha => Or.inl ha⟩
  | none => exact hf r.st r.acts

/-- Frame lemma for a chain of single-item handler statements: keys
outside their write set are untouched, the roster is untouched, and
every new action is a state publish of some written item. -/
theorem foldl_hseq_frame (Bad : String → Prop)
    (steps : List (Bridge → List Act → HRes)) (r0 : HRes)
    (h : ∀ f ∈ steps, ∃ item, ¬ Bad item ∧ WritesOnly item f) :
    (steps.foldl hseq r0).st.battery_packs = r0.st.battery_packs ∧
    (∀ k, Bad k → dictGet (steps.foldl hseq r0).st.cache k = dictGet r0.st.cache k) ∧
    ∀ a ∈ (steps.foldl hseq r0).acts,
      a ∈ r0.acts ∨ ∃ i t v, ¬ Bad i ∧ a = Act.pubState i t v := by
  induction steps generalizing r0 with
  | nil => exact ⟨rfl, fun k hk => rfl, fun a ha => Or.inl ha⟩
  | cons f rest ih =>
    obtain ⟨item, hbad, hw⟩ := h f (List.mem_cons_self f rest)
    have hrest := ih (hseq r0 f) (fun g hg => h g (List.mem_cons_of_mem f hg))
    have hstep := hseq_frame item r0 f hw
    refine ⟨?_, ?_, ?_⟩
    · rw [List.foldl_cons, hrest.1, hstep.1]
    · intro k hk
      rw [List.foldl_cons, hrest.2.1 k hk]
      exact hstep.2.1 k (fun he => hbad (he ▸ hk))
    · intro a ha
      rw [List.foldl_cons] at ha
      rcases hrest.2.2 a ha with ha2 | ⟨i, t, v, hbi, hav⟩
      · rcases hstep.2.2 a ha2 with ha3 | ⟨t, v, hav⟩
        · exact Or.inl ha3
        · exact Or.inr ⟨item, t, v, hbad, hav⟩
      · exact Or.inr ⟨i, t, v, hbi, hav⟩

theorem stepPackNum_frame (props : List (String × ℚ)) (pd : Option (List PackData))
    (st : Bridge) (acts : List Act) :
    (stepPackNum props pd st acts).st.cache = st.cache ∧
    (stepPackNum props pd st acts).err = none ∧
    ∀ a ∈ (stepPackNum props pd st acts).acts, a ∈ acts ∨
      a = Act.runInDiscovery SEND_DISCOVERY_INTERVAL_SEC := by
  unfold stepPackNum
  split
  · split
    · refine ⟨rfl, rfl, fun a ha => ?_⟩
      rcases List.mem_append.mp ha with h | h
      · exact Or.inl h
      · simp at h
        exact Or.inr h
    · exact ⟨rfl, rfl, fun a ha => Or.inl ha⟩
  · exact ⟨rfl, rfl, fun a ha => Or.inl ha⟩

theorem stepPackNum_packs (props : List (String × ℚ)) (pd : Option (List PackData))
    (st : Bridge) (acts : List Act)
    (h : alookup props "packNum" = none ∨ pd = none) :
    (stepPackNum props pd st acts).st.battery_packs = st.battery_packs := by
  unfold stepPackNum
  rcases h with h | h
  · simp [h]
  · subst h
    split <;> rfl

theorem optPub_packs (item : String) (ov : Option PVal) (r : Bridge × List Act) :
    (optPub item ov r).1.battery_packs = r.1.battery_packs := by
  cases ov <;> simp [optPub, publish_state]

theorem optPub_cache_ne (item : String) (ov : Option PVal) (r : Bridge × List Act)
    (k : String) (hk : k ≠ item) :
    dictGet (optPub item ov r).1.cache k = dictGet r.1.cache k := by
  cases ov with
  | none => rfl
  | some v => exact dictGet_set_ne _ _ _ _ hk

theorem optPub_acts (item : String) (ov : Option PVal) (r : Bridge × List Act)
    (k : String) (hk : k ≠ item) (t : String) (w : PVal)
    (h : Act.pubState k t w ∈ (optPub item ov r).2) : Act.pubState k t w ∈ r.2 := by
  cases ov with
  | none => exact h
  | some v =>
    rcases List.mem_append.mp h with h2 | h2
    · exact h2
    · obtain ⟨t2, ht⟩ := mem_pubActs r.1 item v _ h2
      injection ht with h1 _ _
      exact absurd h1 hk

theorem applyPack_packs (r : Bridge × List Act) (pack : PackData) :
    (applyPack r pack).1.battery_packs = r.1.battery_packs := by
  unfold applyPack
  split
  · rw [optPub_packs, optPub_packs, optPub_packs]
  · rfl

theorem applyPack_frame (r : Bridge × List Act) (pack : PackData) (s : String)
    (hs : s ∉ r.1.battery_packs) (suffix : String)
    (hsuf : suffix ∈ (["_soc", "_state", "_temperature"] : List String)) :
    dictGet (applyPack r pack).1.cache (packItem s suffix)
      = dictGet r.1.cache (packItem s suffix) ∧
    ∀ t v, Act.pubState (packItem s suffix) t v ∈ (applyPack r pack).2 →
      Act.pubState (packItem s suffix) t v ∈ r.2 := by
  unfold applyPack
  split
  · next hmem =>
    have hne : s ≠ pack.sn := fun he => hs (he ▸ hmem)
    have h1 := packKey_ne s pack.sn hne suffix hsuf "_soc" (by simp)
    have h2 := packKey_ne s pack.sn hne suffix hsuf "_state" (by simp)
    have h3 := packKey_ne s pack.sn hne suffix hsuf "_temperature" (by simp)
    constructor
    · rw [optPub_cache_ne _ _ _ _ h3, optPub_cache_ne _ _ _ _ h2,
        optPub_cache_ne _ _ _ _ h1]
    · intro t v hv
      exact optPub_acts _ _ _ _ h1 t v
        (optPub_acts _ _ _ _ h2 t v (optPub_acts _ _ _ _ h3 t v hv))
  · exact ⟨rfl, fun t v h => h⟩

theorem foldl_applyPack_packs (pd : List PackData) (r : Bridge × List Act) :
    (pd.foldl applyPack r).1.battery_packs = r.1.battery_packs := by
  induction pd generalizing r with
  | nil => rfl
  | cons p rest ih => rw [List.foldl_cons, ih, applyPack_packs]

theorem foldl_applyPack_frame (pd : List PackData) (r : Bridge × List Act) (s : String)
    (hs : s ∉ r.1.battery_packs) (suffix : String)
    (hsuf : suffix ∈ (["_soc", "_state", "_temperature"] : List String)) :
    dictGet (pd.foldl applyPack r).1.cache (packItem s suffix)
      = dictGet r.1.cache (packItem s suffix) ∧
    ∀ t v, Act.pubState (packItem s suffix) t v ∈ (pd.foldl applyPack r).2 →
      Act.pubState (packItem s suffix) t v ∈ r.2 := by
  induction pd generalizing r with
  | nil => exact ⟨rfl, fun t v h => h⟩
  | cons pack rest ih =>
    have hs1 : s ∉ (applyPack r pack).1.battery_packs := by
      rw [applyPack_packs]
      exact hs
    have h1 := applyPack_frame r pack s hs suffix hsuf
    have h2 := ih (applyPack r pack) hs1
    refine ⟨?_, ?_⟩
    · rw [List.foldl_cons, h2.1, h1.1]
    · intro t v hv
      rw [List.foldl_cons] at hv
      exact h1.2 t v (h2.2 t v hv)

theorem stepPackData_packs (pd : Option (List PackData)) (st : Bridge)
    (acts : List Act) :
    (stepPackData pd st acts).st.battery_packs = st.battery_packs := by
  cases pd with
  | none => rfl
  | some l => exact foldl_applyPack_packs l (st, acts)

theorem stepPackData_frame (pd : Option (List PackData)) (st : Bridge)
    (acts : List Act) (s : String) (hs : s ∉ st.battery_packs) (suffix : String)
    (hsuf : suffix ∈ (["_soc", "_state", "_temperature"] : List String)) :
    dictGet (stepPackData pd st acts).st.cache (packItem s suffix)
      = dictGet st.cache (packItem s suffix) ∧
    ∀ t v, Act.pubState (packItem s suffix) t v ∈ (stepPackData pd st acts).acts →
      Act.pubState (packItem s suffix) t v ∈ acts := by
  cases pd with
  | none => exact ⟨rfl, fun t v h => h⟩
  | some l => exact foldl_applyPack_frame l (st, acts) s hs suffix hsuf

/-- C9: the battery-pack roster is assigned only by a report carrying
the pack enumeration key `packNum` together with `packData`; and every
per-pack update whose serial is not in the current roster is ignored —
no cache entry is created or changed for that serial's SOC, state or
temperature, and no state publish for them is emitted. -/
theorem C9_roster_integrity (st0 : Bridge) (data : Report) (s : String) :
    (isPackEnumeration data = false →
      (properties_report_received st0 data).st.battery_packs = st0.battery_packs) ∧
    (s ∉ (properties_report_received st0 data).st.battery_packs →
      ∀ suffix ∈ (["_soc", "_state", "_temperature"] : List String),
        dictGet (properties_report_received st0 data).st.cache (packItem s suffix)
          = dictGet st0.cache (packItem s suffix) ∧
        ∀ t v, Act.pubState (packItem s suffix) t v
          ∉ (properties_report_received st0 data).acts) := by
  cases hprops : data.properties with
  | none =>
    simp [properties_report_received, hprops]
  | some props =>
    have hsteps : ∀ f ∈ handlerFront props, ∃ item,
        ¬ (item = packItem s "_soc" ∨ item = packItem s "_state"
            ∨ item = packItem s "_temperature") ∧ WritesOnly item f := by
      intro f hf
      simp only [handlerFront, List.mem_cons, List.not_mem_nil, or_false] at hf
      rcases hf with rfl | rfl | rfl | rfl | rfl | rfl | rfl | rfl | rfl | rfl | rfl |
        rfl | rfl | rfl | rfl | rfl | rfl | rfl | rfl | rfl
      · exact ⟨"battery", notPackKey s _ (by decide), stepPub_writesOnly _ _ _ _⟩
      · exact ⟨"home_output_power", notPackKey s _ (by decide), stepPub_writesOnly _ _ _ _⟩
      · exact ⟨"battery_output_power", notPackKey s _ (by decide), stepPub_writesOnly _ _ _ _⟩
      · exact ⟨"solar_input_power", notPackKey s _ (by decide), stepPub_writesOnly _ _ _ _⟩
      · exact ⟨"solar_input_1_power", notPackKey s _ (by decide), stepPub_writesOnly _ _ _ _⟩
      · exact ⟨"solar_input_1_power", notPackKey s _ (by decide), stepPub_writesOnly _ _ _ _⟩
      · exact ⟨"solar_input_2_power", notPackKey s _ (by decide), stepPub_writesOnly _ _ _ _⟩
      · exact ⟨"solar_input_2_power", notPackKey s _ (by decide), stepPub_writesOnly _ _ _ _⟩
      · exact ⟨"battery_input_power", notPackKey s _ (by decide), stepPub_writesOnly _ _ _ _⟩
      · exact ⟨"bypass_mode", notPackKey s _ (by decide), stepEnum_writesOnly _ _ _ _⟩
      · exact ⟨"solar_overflow_power", notPackKey s _ (by decide), stepOverflow_writesOnly _⟩
      · exact ⟨"state", notPackKey s _ (by decide), stepAggState_writesOnly _⟩
      · exact ⟨"output_limit", notPackKey s _ (by decide), stepPub_writesOnly _ _ _ _⟩
      · exact ⟨"max_inverter_input", notPackKey s _ (by decide), stepPub_writesOnly _ _ _ _⟩
      · exact ⟨"min_soc", notPackKey s _ (by decide), stepPub_writesOnly _ _ _ _⟩
      · exact ⟨"max_soc", notPackKey s _ (by decide), stepPub_writesOnly _ _ _ _⟩
      · exact ⟨"battery_runtime", notPackKey s _ (by decide), stepPub_writesOnly _ _ _ _⟩
      · exact ⟨"battery_charge_time", notPackKey s _ (by decide), stepPub_writesOnly _ _ _ _⟩
      · exact ⟨"pv_brand", notPackKey s _ (by decide), stepEnum_writesOnly _ _ _ _⟩
      · exact ⟨"buzzer_switch", notPackKey s _ (by decide), stepPub_writesOnly _ _ _ _⟩
    have hfront := foldl_hseq_frame
      (fun k => k = packItem s "_soc" ∨ k = packItem s "_state"
        ∨ k = packItem s "_temperature")
      (handlerFront props) ⟨st0, [], none⟩ hsteps
    have hsplit : properties_report_received st0 data
        = hseq (hseq (List.foldl hseq ⟨st0, [], none⟩ (handlerFront props))
              (stepPackNum props data.packData))
            (stepPackData data.packData) := by
      simp only [properties_report_received, hprops, handlerSteps, List.foldl_append,
        List.foldl_cons, List.foldl_nil]
    rw [hsplit]
    cases herr : (List.foldl hseq ⟨st0, [], none⟩ (handlerFront props)).err with
    | some e =>
      simp only [hseq, herr]
      refine ⟨fun _ => hfront.1, fun hs suffix hsuf => ?_⟩
      have hbad : packItem s suffix = packItem s "_soc"
          ∨ packItem s suffix = packItem s "_state"
          ∨ packItem s suffix = packItem s "_temperature" := by
        fin_cases hsuf
        · exact Or.inl rfl
        · exact Or.inr (Or.inl rfl)
        · exact Or.inr (Or.inr rfl)
      refine ⟨hfront.2.1 _ hbad, fun t v hmem => ?_⟩
      rcases hfront.2.2 _ hmem with h | ⟨i, t2, v2, hbi, heq⟩
      · simp at h
      · injection heq with h1 _ _
        exact hbi (h1 ▸ hbad)
    | none =>
      have hpnerr := (stepPackNum_frame props data.packData
        (List.foldl hseq ⟨st0, [], none⟩ (handlerFront props)).st
        (List.foldl hseq ⟨st0, [], none⟩ (handlerFront props)).acts).2.1
      simp only [hseq, herr, hpnerr]
      constructor
      · intro hnum
        have hpn : alookup props "packNum" = none ∨ data.packData = none := by
          simp [isPackEnumeration, hprops] at hnum
          cases hcase : alookup props "packNum" with
          | none => exact Or.inl rfl
          | some x => exact Or.inr (hnum (by simp [hcase]))
        rw [stepPackData_packs, stepPackNum_packs _ _ _ _ hpn]
        exact hfront.1
      · intro hs suffix hsuf
        rw [stepPackData_packs] at hs
        have hbad : packItem s suffix = packItem s "_soc"
            ∨ packItem s suffix = packItem s "_state"
            ∨ packItem s suffix = packItem s "_temperature" := by
          fin_cases hsuf
          · exact Or.inl rfl
          · exact Or.inr (Or.inl rfl)
          · exact Or.inr (Or.inr rfl)
        have hframe := stepPackData_frame data.packData
          (stepPackNum props data.packData
            (List.foldl hseq ⟨st0, [], none⟩ (handlerFront props)).st
            (List.foldl hseq ⟨st0, [], none⟩ (handlerFront props)).acts).st
          (stepPackNum props data.packData
            (List.foldl hseq ⟨st0, [], none⟩ (handlerFront props)).st
            (List.foldl hseq ⟨st0, [], none⟩ (handlerFront props)).acts).acts
          s hs suffix hsuf
        have hpncache := (stepPackNum_frame props data.packData
          (List.foldl hseq ⟨st0, [], none⟩ (handlerFront props)).st
          (List.foldl hseq ⟨st0, [], none⟩ (handlerFront props)).acts).1
        refine ⟨?_, fun t v hmem => ?_⟩
        · rw [hframe.1, hpncache]
          exact hfront.2.1 _ hbad
        · have h2 := hframe.2 t v hmem
          rcases (stepPackNum_frame props data.packData _ _).2.2 _ h2 with h3 | h3
          · rcases hfront.2.2 _ h3 with h4 | ⟨i, t2, v2, hbi, heq⟩
            · simp at h4
            · injection heq with h1 _ _
              exact hbi (h1 ▸ hbad)
          · exact Act.noConfusion h3

/-- C9 witness: a per-pack update for the unknown serial ZZ9 against a
one-pack roster neither changes the roster nor creates a cache entry. -/
theorem C9_roster_integrity_witness :
    (properties_report_received { emptyBridge with battery_packs := ["AB123"] }
        { properties := some [], packData := some
            [{ sn := "ZZ9", socLevel := some 500, state := some 1,
               maxTemp := some 310 }] }).st.battery_packs
      = ({ emptyBridge with battery_packs := ["AB123"] } : Bridge).battery_packs ∧
    dictGet (properties_report_received { emptyBridge with battery_packs := ["AB123"] }
        { properties := some [], packData := some
            [{ sn := "ZZ9", socLevel := some 500, state := some 1,
               maxTemp := some 310 }] }).st.cache (packItem "ZZ9" "_soc")
      = dictGet ({ emptyBridge with battery_packs := ["AB123"] } : Bridge).cache
          (packItem "ZZ9" "_soc") := by
  have h := C9_roster_integrity { emptyBridge with battery_packs := ["AB123"] }
    { properties := some [], packData := some
        [{ sn := "ZZ9", socLevel := some 500, state := some 1, maxTemp := some 310 }] }
    "ZZ9"
  exact ⟨h.1 (by decide), (h.2 (by decide) "_soc" (by decide)).1⟩

theorem alookup_append {α : Type} (l1 l2 : List (String × α)) (k : String) :
    alookup (l1 ++ l2) k
      = match alookup l1 k with
        | some v => some v
        | none => alookup l2 k := by
  induction l1 with
  | nil => rfl
  | cons hd tl ih =>
    obtain ⟨k1, v1⟩ := hd
    by_cases h : k1 = k <;> simp [alookup, h, ih]

theorem subscribeCommandStep_acts (acc : List String × List Act)
    (itm : String × ItemInfo) :
    ∀ a ∈ (subscribeCommandStep acc itm).2,
      a ∈ acc.2 ∨ ∃ t, a = Act.subscribeCmd t := by
  intro a ha
  unfold subscribeCommandStep at ha
  split at ha
  · next t _ =>
    split at ha
    · exact Or.inl ha
    · rcases List.mem_append.mp ha with h | h
      · exact Or.inl h
      · simp at h
        exact Or.inr ⟨t, h⟩
  · exact Or.inl ha

theorem subscribeCommands_acts (acc : List String × List Act)
    (topics : List (String × ItemInfo)) :
    ∀ a ∈ (subscribeCommands acc topics).2,
      a ∈ acc.2 ∨ ∃ t, a = Act.subscribeCmd t := by
  induction topics generalizing acc with
  | nil => exact fun a ha => Or.inl ha
  | cons itm rest ih =>
    intro a ha
    have ha2 : a ∈ (subscribeCommands (subscribeCommandStep acc itm) rest).2 := by
      simpa [subscribeCommands] using ha
    rcases ih (subscribeCommandStep acc itm) a ha2 with h | h
    · exact subscribeCommandStep_acts acc itm a h
    · exact Or.inr h

theorem registerItemStep_acts (acc : List (String × ItemInfo) × List Act)
    (itm : String × ItemInfo) :
    ∀ a ∈ (registerItemStep acc itm).2, a ∈ acc.2 ∨ isDescPub a = true := by
  intro a ha
  unfold registerItemStep at ha
  split at ha
  · exact Or.inl ha
  · rcases List.mem_append.mp ha with h | h
    · rcases List.mem_append.mp h with h2 | h2
      · exact Or.inl h2
      · simp at h2
        subst h2
        exact Or.inr rfl
    · split at h
      · simp at h
        subst h
        exact Or.inr rfl
      · simp at h

theorem registerItemStep_acts_mono (acc : List (String × ItemInfo) × List Act)
    (itm : String × ItemInfo) (a : Act) (h : a ∈ acc.2) :
    a ∈ (registerItemStep acc itm).2 := by
  unfold registerItemStep
  split
  · exact h
  · exact List.mem_append.mpr (Or.inl (List.mem_append.mpr (Or.inl h)))

theorem registerItems_acts_mono (nt : List (String × ItemInfo))
    (acc : List (String × ItemInfo) × List Act) (a : Act) (h : a ∈ acc.2) :
    a ∈ (registerItems acc nt).2 := by
  induction nt generalizing acc with
  | nil => exact h
  | cons itm rest ih =>
    have h1 := registerItemStep_acts_mono acc itm a h
    simpa [registerItems] using ih (registerItemStep acc itm) h1

theorem registerItems_acts (acc : List (String × ItemInfo) × List Act)
    (nt : List (String × ItemInfo)) :
    ∀ a ∈ (registerItems acc nt).2, a ∈ acc.2 ∨ isDescPub a = true := by
  induction nt generalizing acc with
  | nil => exact fun a ha => Or.inl ha
  | cons itm rest ih =>
    intro a ha
    have ha2 : a ∈ (registerItems (registerItemStep acc itm) rest).2 := by
      simpa [registerItems] using ha
    rcases ih (registerItemStep acc itm) a ha2 with h | h
    · exact registerItemStep_acts acc itm a h
    · exact Or.inr h

theorem registerItemStep_topics_mono (acc : List (String × ItemInfo) × List Act)
    (itm : String × ItemInfo) (i : String)
    (h : (alookup acc.1 i).isSome = true) :
    (alookup (registerItemStep acc itm).1 i).isSome = true := by
  unfold registerItemStep
  split
  · exact h
  · rw [alookup_append]
    cases hl : alookup acc.1 i with
    | none => rw [hl] at h; simp at h
    | some v => simp [hl]

theorem registerItems_topics_mono (nt : List (String × ItemInfo))
    (acc : List (String × ItemInfo) × List Act) (i : String)
    (h : (alookup acc.1 i).isSome = true) :
    (alookup (registerItems acc nt).1 i).isSome = true := by
  induction nt generalizing acc with
  | nil => exact h
  | cons itm rest ih =>
    have h1 := registerItemStep_topics_mono acc itm i h
    simpa [registerItems] using ih (registerItemStep acc itm) h1

/-- After the registration loop, every item of the processed descriptor
set is registered. -/
theorem registerItems_complete (nt : List (String × ItemInfo))
    (acc : List (String × ItemInfo) × List Act) :
    ∀ itm ∈ nt, (alookup (registerItems acc nt).1 itm.1).isSome = true := by
  induction nt generalizing acc with
  | nil => simp
  | cons itm rest ih =>
    intro j hj
    rcases List.mem_cons.mp hj with heq | hj
    · subst heq
      have hstep : (alookup (registerItemStep acc j).1 j.1).isSome = true := by
        unfold registerItemStep
        split
        · next hsome => exact hsome
        · obtain ⟨j1, j2⟩ := j
          rw [alookup_append]
          cases hl : alookup acc.1 j1 with
          | none => simp [alookup]
          | some v => simp [hl]
      have hmono : (alookup (registerItems (registerItemStep acc j) rest).1 j.1).isSome = true :=
        registerItems_topics_mono rest (registerItemStep acc j) j.1 hstep
      simpa [registerItems] using hmono
    · have hrest := ih (registerItemStep acc itm) j hj
      simpa [registerItems] using hrest

/-- Registering a descriptor set whose items are all already registered
publishes nothing and changes nothing. -/
theorem registerItems_nopub (nt : List (String × ItemInfo))
    (acc : List (String × ItemInfo) × List Act)
    (h : ∀ itm ∈ nt, (alookup acc.1 itm.1).isSome = true) :
    registerItems acc nt = acc := by
  induction nt generalizing acc with
  | nil => rfl
  | cons itm rest ih =>
    have hstep : registerItemStep acc itm = acc := by
      unfold registerItemStep
      rw [if_pos (h itm (List.mem_cons_self itm rest))]
    calc registerItems acc (itm :: rest)
        = registerItems (registerItemStep acc itm) rest := by simp [registerItems]
      _ = registerItems acc rest := by rw [hstep]
      _ = acc := ih acc (fun j hj => h j (List.mem_cons_of_mem itm hj))

theorem registerItemStep_pubConfig (acc : List (String × ItemInfo) × List Act)
    (itm : String × ItemInfo) (h : alookup acc.1 itm.1 = none) :
    Act.pubConfig itm.1 itm.2.config_topic ∈ (registerItemStep acc itm).2 := by
  unfold registerItemStep
  rw [if_neg (by simp [h])]
  exact List.mem_append.mpr (Or.inl (List.mem_append.mpr (Or.inr (by simp))))

theorem registerItems_head_pubConfig (acc : List (String × ItemInfo) × List Act)
    (itm : String × ItemInfo) (rest : List (String × ItemInfo))
    (h : alookup acc.1 itm.1 = none) :
    Act.pubConfig itm.1 itm.2.config_topic ∈ (registerItems acc (itm :: rest)).2 := by
  have h1 := registerItemStep_pubConfig acc itm h
  have h2 := registerItems_acts_mono rest (registerItemStep acc itm) _ h1
  simpa [registerItems] using h2

theorem registerItems_headq_pubConfig (acc : List (String × ItemInfo) × List Act)
    (nt : List (String × ItemInfo)) (itm : String × ItemInfo)
    (hh : nt.head? = some itm) (h : alookup acc.1 itm.1 = none) :
    Act.pubConfig itm.1 itm.2.config_topic ∈ (registerItems acc nt).2 := by
  cases nt with
  | nil => simp at hh
  | cons a rest =>
    simp at hh
    subst hh
    exact registerItems_head_pubConfig acc a rest h

/-- C4 (counterexample): with the device serial known and
`max_inverter_input` cached but the battery roster empty — a readiness
precondition unmet according to the claim — the publish routine
publishes descriptors anyway and schedules no 10-second retry. -/
theorem C4_counterexample :
    readyBridge.battery_packs = [] ∧
    Act.pubConfig "battery"
        "homeassistant/sensor/solarflow_SF12345_5ak8yGU7/battery_soc/config"
      ∈ (try_send_discovery readyBridge).2 ∧
    Act.runInDiscovery SEND_DISCOVERY_INTERVAL_SEC ∉ (try_send_discovery readyBridge).2 := by
  exact ⟨rfl, by decide, by decide⟩

/-- C4 (amended): only the device-serial and max-inverter-input
preconditions block discovery — each of those publishes nothing, logs,
issues a read-all and reschedules the fixed 10-second retry.  An empty
battery roster merely logs and issues a read-all: descriptor
publication still proceeds and no 10-second retry is scheduled. -/
theorem C4_amended_discovery_preconditions (st : Bridge) :
    (st.device_serial = none →
      try_send_discovery st
        = (st, [Act.logMsg "Device serial not yet known, not sending discovery info",
                Act.readAll, Act.runInDiscovery SEND_DISCOVERY_INTERVAL_SEC])) ∧
    (∀ s, st.device_serial = some s → dictGet st.cache "max_inverter_input" = none →
      try_send_discovery st
        = (st, (if st.battery_packs = [] then
                  [Act.logMsg "Battery packs not yet known (or no batteries installed)",
                   Act.readAll]
                else [])
            ++ [Act.logMsg "Max inverter input not yet known, not sending discovery info",
                Act.readAll, Act.runInDiscovery SEND_DISCOVERY_INTERVAL_SEC])) ∧
    (∀ s, st.device_serial = some s → ¬ dictGet st.cache "max_inverter_input" = none →
      st.battery_packs = [] →
      Act.logMsg "Battery packs not yet known (or no batteries installed)"
          ∈ (try_send_discovery st).2 ∧
      Act.readAll ∈ (try_send_discovery st).2 ∧
      Act.runInDiscovery SEND_DISCOVERY_INTERVAL_SEC ∉ (try_send_discovery st).2 ∧
      (alookup st.topics "battery" = none →
        ∃ c, Act.pubConfig "battery" c ∈ (try_send_discovery st).2)) := by
  refine ⟨?_, ?_, ?_⟩
  · intro h
    simp only [try_send_discovery, h]
  · intro s hser hmax
    simp only [try_send_discovery, hser]
    rw [if_pos hmax]
  · intro s hser hmax hpacks
    have hacts : (try_send_discovery st).2
        = (if st.battery_packs = [] then
             [Act.logMsg "Battery packs not yet known (or no batteries installed)",
              Act.readAll]
           else [])
          ++ [Act.logMsg "Sending discovery info"]
          ++ (subscribeCommands (st.command_topics, []) st.topics).2
          ++ (registerItems (st.topics, [])
                (new_topics ("solarflow_" ++ s ++ "_" ++ st.device_id)
                  st.battery_packs)).2
          ++ [Act.readAll, Act.runInPeriodic REQUEST_ALL_INTERVAL_SEC] := by
      simp only [try_send_discovery, hser]
      rw [if_neg hmax]
    refine ⟨?_, ?_, ?_, ?_⟩
    · rw [hacts, hpacks]
      simp
    · rw [hacts, hpacks]
      simp
    · rw [hacts, hpacks]
      intro hmem
      simp at hmem
      rcases hmem with h | h
      · rcases subscribeCommands_acts _ _ _ h with h2 | ⟨t, ht⟩
        · simp at h2
        · exact Act.noConfusion ht
      · rcases registerItems_acts _ _ _ h with h2 | h2
        · simp at h2
        · simp [isDescPub] at h2
    · intro htop
      have hmem := registerItems_headq_pubConfig (st.topics, [])
        (new_topics ("solarflow_" ++ s ++ "_" ++ st.device_id) st.battery_packs)
        ("battery",
          { config_topic := "homeassistant/sensor/"
              ++ ("solarflow_" ++ s ++ "_" ++ st.device_id) ++ "/battery_soc/config"
            state_topic := "solarflow/battery/state"
            command_topic := none
            has_command_callback := false
            start_value := none })
        rfl htop
      refine ⟨"homeassistant/sensor/" ++ ("solarflow_" ++ s ++ "_" ++ st.device_id)
        ++ "/battery_soc/config", ?_⟩
      rw [hacts]
      simp only [List.mem_append]
      exact Or.inl (Or.inr hmem)

/-- C4 (amended) witness: the serial-unknown branch at the fresh
bridge, and the proceeding empty-roster branch at the ready bridge. -/
theorem C4_amended_discovery_preconditions_witness :
    try_send_discovery emptyBridge
      = (emptyBridge,
         [Act.logMsg "Device serial not yet known, not sending discovery info",
          Act.readAll, Act.runInDiscovery SEND_DISCOVERY_INTERVAL_SEC]) ∧
    Act.readAll ∈ (try_send_discovery readyBridge).2 ∧
    Act.runInDiscovery SEND_DISCOVERY_INTERVAL_SEC ∉ (try_send_discovery readyBridge).2 := by
  refine ⟨(C4_amended_discovery_preconditions emptyBridge).1 rfl, ?_, ?_⟩
  · exact ((C4_amended_discovery_preconditions readyBridge).2.2 "SF12345" rfl
      (by decide) rfl).2.1
  · exact ((C4_amended_discovery_preconditions readyBridge).2.2 "SF12345" rfl
      (by decide) rfl).2.2.1

/-- C8: with readiness unchanged, the second invocation of the
discovery publish routine publishes no descriptor (and no initial
value) at all — every item registered by the first invocation is found
in the registered-topics map and skipped, so each item's descriptor is
published at most once. -/
theorem C8_discovery_idempotent (st : Bridge) (s : String)
    (hser : st.device_serial = some s)
    (hmax : ¬ dictGet st.cache "max_inverter_input" = none) :
    List.all (try_send_discovery (try_send_discovery st).1).2
      (fun a => !(isDescPub a)) = true := by
  have h1 : (try_send_discovery st).1
      = { st with
          topics := (registerItems (st.topics, [])
            (new_topics ("solarflow_" ++ s ++ "_" ++ st.device_id)
              st.battery_packs)).1
          command_topics := (subscribeCommands (st.command_topics, []) st.topics).1 } := by
    simp only [try_send_discovery, hser]
    rw [if_neg hmax]
  have hser1 : (try_send_discovery st).1.device_serial = some s := by
    rw [h1]
    exact hser
  have hmax1 : ¬ dictGet (try_send_discovery st).1.cache "max_inverter_input" = none := by
    rw [h1]
    exact hmax
  have hdev1 : (try_send_discovery st).1.device_id = st.device_id := by
    rw [h1]
  have hpacks1 : (try_send_discovery st).1.battery_packs = st.battery_packs := by
    rw [h1]
  have htop1 : (try_send_discovery st).1.topics
      = (registerItems (st.topics, [])
          (new_topics ("solarflow_" ++ s ++ "_" ++ st.device_id) st.battery_packs)).1 := by
    rw [h1]
  have hreg2 : registerItems ((try_send_discovery st).1.topics, [])
      (new_topics ("solarflow_" ++ s ++ "_" ++ (try_send_discovery st).1.device_id)
        (try_send_discovery st).1.battery_packs)
      = ((try_send_discovery st).1.topics, []) := by
    apply registerItems_nopub
    intro itm hm
    rw [hdev1, hpacks1] at hm
    rw [htop1]
    exact registerItems_complete _ (st.topics, []) itm hm
  have hacts2 : (try_send_discovery (try_send_discovery st).1).2
      = (if (try_send_discovery st).1.battery_packs = [] then
           [Act.logMsg "Battery packs not yet known (or no batteries installed)",
            Act.readAll]
         else [])
        ++ [Act.logMsg "Sending discovery info"]
        ++ (subscribeCommands ((try_send_discovery st).1.command_topics, [])
            (try_send_discovery st).1.topics).2
        ++ (registerItems ((try_send_discovery st).1.topics, [])
            (new_topics ("solarflow_" ++ s ++ "_" ++ (try_send_discovery st).1.device_id)
              (try_send_discovery st).1.battery_packs)).2
        ++ [Act.readAll, Act.runInPeriodic REQUEST_ALL_INTERVAL_SEC] := by
    conv_lhs => rw [show try_send_discovery (try_send_discovery st).1
      = try_send_discovery (try_send_discovery st).1 from rfl]
    generalize hst1 : (try_send_discovery st).1 = st1 at hser1 hmax1 ⊢
    simp only [try_send_discovery, hser1]
    rw [if_neg hmax1]
  have hsub : ∀ x ∈ (subscribeCommands ((try_send_discovery st).1.command_topics, [])
      (try_send_discovery st).1.topics).2, (!isDescPub x) = true := by
    intro x hx
    rcases subscribeCommands_acts _ _ _ hx with h2 | ⟨t, rfl⟩
    · simp at h2
    · rfl
  rw [List.all_eq_true]
  intro a ha
  rw [hacts2, hreg2] at ha
  show (!isDescPub a) = true
  by_cases hbp : (try_send_discovery st).1.battery_packs = []
  · rw [if_pos hbp] at ha
    simp only [List.mem_append, List.mem_cons, List.not_mem_nil, or_false, false_or,
      List.nil_append, List.append_nil] at ha
    rcases ha with (((rfl | rfl) | rfl) | hC) | (rfl | rfl)
    · rfl
    · rfl
    · rfl
    · exact hsub a hC
    · rfl
    · rfl
  · rw [if_neg hbp] at ha
    simp only [List.mem_append, List.mem_cons, List.not_mem_nil, or_false, false_or,
      List.nil_append, List.append_nil] at ha
    rcases ha with (rfl | hC) | (rfl | rfl)
    · rfl
    · exact hsub a hC
    · rfl
    · rfl

/-- C8 witness at the ready bridge. -/
theorem C8_discovery_idempotent_witness :
    List.all (try_send_discovery (try_send_discovery readyBridge).1).2
      (fun a => !(isDescPub a)) = true :=
  C8_discovery_idempotent readyBridge "SF12345" rfl (by decide)
